import Mathlib

/-!
Shallow embedding of the language-learning-buddy action handlers
(src/unnamed/part_000) over the three tables declared in db/tables.ts.

Modelling choices:
* each table is a `List` of row structures; `db.select.where` is `List.filter`,
  `db.update.set.where` maps a conditional overwrite over the list,
  `db.delete.where` keeps the non-matching rows and reports the number of
  matching ones as `rowsAffected`, `db.insert.values` appends;
* `new Date()` is a `Nat` timestamp supplied as the `now` argument and
  `crypto.randomUUID()` is a `String` supplied as the `freshId` argument;
* `z.date()` columns are `Nat`, `z.number().int()` fields are `Int`,
  optional columns and optional input fields are `Option`;
* a thrown `ActionError` becomes the `Except.error` component of the result;
  every handler returns the (possibly updated) database next to the result.
-/

inductive ActionError where
  | unauthorized
  | notFound
deriving DecidableEq, Repr

structure LanguageProfile where
  id : String
  userId : String
  targetLanguage : String
  nativeLanguage : Option String
  proficiencyLevel : Option String
  goals : Option String
  isActive : Bool
  createdAt : Nat
  updatedAt : Nat
deriving DecidableEq, Repr

structure VocabularyItem where
  id : String
  languageProfileId : String
  userId : String
  term : String
  translation : Option String
  partOfSpeech : Option String
  exampleSentence : Option String
  exampleTranslation : Option String
  difficulty : Option String
  tags : Option String
  lastReviewedAt : Option Nat
  nextReviewAt : Option Nat
  successStreak : Option Int
  totalReviews : Option Int
  createdAt : Nat
  updatedAt : Nat
deriving DecidableEq, Repr

structure PracticeSession where
  id : String
  languageProfileId : String
  userId : String
  mode : Option String
  startedAt : Nat
  endedAt : Option Nat
  totalQuestions : Option Int
  correctAnswers : Option Int
  notes : Option String
  createdAt : Nat
deriving DecidableEq, Repr

structure DB where
  languageProfiles : List LanguageProfile
  vocabularyItems : List VocabularyItem
  practiceSessions : List PracticeSession
deriving DecidableEq, Repr

/-- `requireUser`: the identity gate; fails `UNAUTHORIZED` when the request
context carries no user. -/
def requireUser (uctx : Option String) : Except ActionError String :=
  match uctx with
  | none => .error .unauthorized
  | some u => .ok u

/-! Input schemas, mirroring the `z.object` declarations field for field. -/

structure CreateLanguageProfileInput where
  targetLanguage : String
  nativeLanguage : Option String
  proficiencyLevel : Option String
  goals : Option String
deriving DecidableEq, Repr

structure UpdateLanguageProfileInput where
  id : String
  targetLanguage : Option String
  nativeLanguage : Option String
  proficiencyLevel : Option String
  goals : Option String
  isActive : Option Bool
deriving DecidableEq, Repr

structure UpsertVocabularyItemInput where
  id : Option String
  languageProfileId : String
  term : String
  translation : Option String
  partOfSpeech : Option String
  exampleSentence : Option String
  exampleTranslation : Option String
  difficulty : Option String
  tags : Option String
  lastReviewedAt : Option Nat
  nextReviewAt : Option Nat
  successStreak : Option Int
  totalReviews : Option Int
deriving DecidableEq, Repr

structure ListQueryInput where
  languageProfileId : String
  page : Nat
  pageSize : Nat
deriving DecidableEq, Repr

structure StartPracticeSessionInput where
  languageProfileId : String
  mode : Option String
  totalQuestions : Option Int
  notes : Option String
deriving DecidableEq, Repr

structure CompletePracticeSessionInput where
  id : String
  totalQuestions : Option Int
  correctAnswers : Option Int
  notes : Option String
  endedAt : Option Nat
deriving DecidableEq, Repr

/-- Payload of the two unpaginated / paginated list envelopes. -/
structure ListData (α : Type) where
  items : List α
  total : Nat
deriving DecidableEq, Repr

structure PageData (α : Type) where
  items : List α
  total : Nat
  page : Nat
  pageSize : Nat
deriving DecidableEq, Repr

/-- `createLanguageProfile`: inserts a fresh profile owned by the caller with
`isActive = true` and `createdAt = updatedAt = now`, returning it. -/
def createLanguageProfile (db : DB) (uctx : Option String)
    (input : CreateLanguageProfileInput) (now : Nat) (freshId : String) :
    DB × Except ActionError LanguageProfile :=
  match requireUser uctx with
  | .error e => (db, .error e)
  | .ok user =>
    let profile : LanguageProfile :=
      { id := freshId
        userId := user
        targetLanguage := input.targetLanguage
        nativeLanguage := input.nativeLanguage
        proficiencyLevel := input.proficiencyLevel
        goals := input.goals
        isActive := true
        createdAt := now
        updatedAt := now }
    ({ db with languageProfiles := db.languageProfiles ++ [profile] },
     .ok profile)

/-- `updateLanguageProfile`: loads the profile filtered by (id, caller), fails
`NOT_FOUND` when absent, otherwise writes the field-by-field
`input.x ?? existing.x` merge with a refreshed `updatedAt` and returns it. -/
def updateLanguageProfile (db : DB) (uctx : Option String)
    (input : UpdateLanguageProfileInput) (now : Nat) :
    DB × Except ActionError LanguageProfile :=
  match requireUser uctx with
  | .error e => (db, .error e)
  | .ok user =>
    match (db.languageProfiles.filter
        (fun p => p.id == input.id && p.userId == user)).head? with
    | none => (db, .error .notFound)
    | some existing =>
      let merged : LanguageProfile :=
        { existing with
          targetLanguage := input.targetLanguage.getD existing.targetLanguage
          nativeLanguage := input.nativeLanguage.or existing.nativeLanguage
          proficiencyLevel := input.proficiencyLevel.or existing.proficiencyLevel
          goals := input.goals.or existing.goals
          isActive := input.isActive.getD existing.isActive
          updatedAt := now }
      let written := db.languageProfiles.map
        (fun p => if p.id == input.id && p.userId == user then
          { p with
            targetLanguage := input.targetLanguage.getD existing.targetLanguage
            nativeLanguage := input.nativeLanguage.or existing.nativeLanguage
            proficiencyLevel := input.proficiencyLevel.or existing.proficiencyLevel
            goals := input.goals.or existing.goals
            isActive := input.isActive.getD existing.isActive
            updatedAt := now }
        else p)
      ({ db with languageProfiles := written }, .ok merged)

/-- `listMyLanguageProfiles`: all caller-owned profiles, restricted to
`isActive = true` unless `includeInactive`; `total` is the returned length. -/
def listMyLanguageProfiles (db : DB) (uctx : Option String)
    (includeInactive : Bool) :
    DB × Except ActionError (ListData LanguageProfile) :=
  match requireUser uctx with
  | .error e => (db, .error e)
  | .ok user =>
    let profiles := db.languageProfiles.filter
      (fun p => if includeInactive then p.userId == user
        else p.userId == user && p.isActive == true)
    (db, .ok { items := profiles, total := profiles.length })

/-- `upsertVocabularyItem`: checks the profile is owned by the caller
(`NOT_FOUND` otherwise); with an `id`, overwrites every schema field of the
existing caller-owned item from the input (absent optional inputs clear the
column) and returns the prior row spread under the input; without an `id`,
inserts a fresh row. -/
def upsertVocabularyItem (db : DB) (uctx : Option String)
    (input : UpsertVocabularyItemInput) (now : Nat) (freshId : String) :
    DB × Except ActionError VocabularyItem :=
  match requireUser uctx with
  | .error e => (db, .error e)
  | .ok user =>
    match (db.languageProfiles.filter
        (fun p => p.id == input.languageProfileId && p.userId == user)).head? with
    | none => (db, .error .notFound)
    | some _profile =>
      match input.id with
      | some iid =>
        match (db.vocabularyItems.filter
            (fun it => it.id == iid && it.userId == user)).head? with
        | none => (db, .error .notFound)
        | some existing =>
          let ret : VocabularyItem :=
            { existing with
              languageProfileId := input.languageProfileId
              term := input.term
              translation := input.translation.or existing.translation
              partOfSpeech := input.partOfSpeech.or existing.partOfSpeech
              exampleSentence := input.exampleSentence.or existing.exampleSentence
              exampleTranslation := input.exampleTranslation.or existing.exampleTranslation
              difficulty := input.difficulty.or existing.difficulty
              tags := input.tags.or existing.tags
              lastReviewedAt := input.lastReviewedAt.or existing.lastReviewedAt
              nextReviewAt := input.nextReviewAt.or existing.nextReviewAt
              successStreak := input.successStreak.or existing.successStreak
              totalReviews := input.totalReviews.or existing.totalReviews
              updatedAt := now
              userId := user }
          let written := db.vocabularyItems.map
            (fun it => if it.id == iid && it.userId == user then
              { it with
                languageProfileId := input.languageProfileId
                term := input.term
                translation := input.translation
                partOfSpeech := input.partOfSpeech
                exampleSentence := input.exampleSentence
                exampleTranslation := input.exampleTranslation
                difficulty := input.difficulty
                tags := input.tags
                lastReviewedAt := input.lastReviewedAt
                nextReviewAt := input.nextReviewAt
                successStreak := input.successStreak
                totalReviews := input.totalReviews
                updatedAt := now }
            else it)
          ({ db with vocabularyItems := written }, .ok ret)
      | none =>
        let item : VocabularyItem :=
          { id := freshId
            languageProfileId := input.languageProfileId
            userId := user
            term := input.term
            translation := input.translation
            partOfSpeech := input.partOfSpeech
            exampleSentence := input.exampleSentence
            exampleTranslation := input.exampleTranslation
            difficulty := input.difficulty
            tags := input.tags
            lastReviewedAt := input.lastReviewedAt
            nextReviewAt := input.nextReviewAt
            successStreak := input.successStreak
            totalReviews := input.totalReviews
            createdAt := now
            updatedAt := now }
        ({ db with vocabularyItems := db.vocabularyItems ++ [item] }, .ok item)

/-- `deleteVocabularyItem`: deletes the rows filtered by (id, caller); fails
`NOT_FOUND` when the delete affected zero rows, otherwise `{ success: true }`
(modelled as `Unit`). -/
def deleteVocabularyItem (db : DB) (uctx : Option String) (id : String) :
    DB × Except ActionError Unit :=
  match requireUser uctx with
  | .error e => (db, .error e)
  | .ok user =>
    let rowsAffected := db.vocabularyItems.countP
      (fun it => it.id == id && it.userId == user)
    let remaining := db.vocabularyItems.filter
      (fun it => !(it.id == id && it.userId == user))
    if rowsAffected == 0 then
      ({ db with vocabularyItems := remaining }, .error .notFound)
    else
      ({ db with vocabularyItems := remaining }, .ok ())

/-- `listVocabularyItems`: the caller-owned items of the given profile id,
offset by `(page-1)*pageSize` and limited to `pageSize`; `total` is the
length of the returned page. -/
def listVocabularyItems (db : DB) (uctx : Option String)
    (input : ListQueryInput) :
    DB × Except ActionError (PageData VocabularyItem) :=
  match requireUser uctx with
  | .error e => (db, .error e)
  | .ok user =>
    let offset := (input.page - 1) * input.pageSize
    let items := ((db.vocabularyItems.filter
        (fun it => it.languageProfileId == input.languageProfileId &&
          it.userId == user)).drop offset).take input.pageSize
    (db, .ok { items := items, total := items.length,
               page := input.page, pageSize := input.pageSize })

/-- `startPracticeSession`: checks profile ownership (`NOT_FOUND` otherwise),
inserts a fresh session with `startedAt = createdAt = now`, `endedAt = null`,
`correctAnswers = null`, and returns it. -/
def startPracticeSession (db : DB) (uctx : Option String)
    (input : StartPracticeSessionInput) (now : Nat) (freshId : String) :
    DB × Except ActionError PracticeSession :=
  match requireUser uctx with
  | .error e => (db, .error e)
  | .ok user =>
    match (db.languageProfiles.filter
        (fun p => p.id == input.languageProfileId && p.userId == user)).head? with
    | none => (db, .error .notFound)
    | some _profile =>
      let session : PracticeSession :=
        { id := freshId
          languageProfileId := input.languageProfileId
          userId := user
          mode := input.mode
          startedAt := now
          endedAt := none
          totalQuestions := input.totalQuestions
          correctAnswers := none
          notes := input.notes
          createdAt := now }
      ({ db with practiceSessions := db.practiceSessions ++ [session] },
       .ok session)

/-- `completePracticeSession`: loads the session filtered by (id, caller),
fails `NOT_FOUND` when absent; sets `endedAt` to the supplied value or `now`
and merges `totalQuestions`/`correctAnswers`/`notes` with
`input.x ?? session.x`, returning the merged session. -/
def completePracticeSession (db : DB) (uctx : Option String)
    (input : CompletePracticeSessionInput) (now : Nat) :
    DB × Except ActionError PracticeSession :=
  match requireUser uctx with
  | .error e => (db, .error e)
  | .ok user =>
    match (db.practiceSessions.filter
        (fun s => s.id == input.id && s.userId == user)).head? with
    | none => (db, .error .notFound)
    | some session =>
      let endedAt := input.endedAt.getD now
      let merged : PracticeSession :=
        { session with
          totalQuestions := input.totalQuestions.or session.totalQuestions
          correctAnswers := input.correctAnswers.or session.correctAnswers
          notes := input.notes.or session.notes
          endedAt := some endedAt }
      let written := db.practiceSessions.map
        (fun s => if s.id == input.id && s.userId == user then
          { s with
            totalQuestions := input.totalQuestions.or s.totalQuestions
            correctAnswers := input.correctAnswers.or s.correctAnswers
            notes := input.notes.or s.notes
            endedAt := some endedAt }
        else s)
      ({ db with practiceSessions := written }, .ok merged)

/-- `listPracticeSessions`: same pagination contract as `listVocabularyItems`
over the sessions table. -/
def listPracticeSessions (db : DB) (uctx : Option String)
    (input : ListQueryInput) :
    DB × Except ActionError (PageData PracticeSession) :=
  match requireUser uctx with
  | .error e => (db, .error e)
  | .ok user =>
    let offset := (input.page - 1) * input.pageSize
    let sessions := ((db.practiceSessions.filter
        (fun s => s.languageProfileId == input.languageProfileId &&
          s.userId == user)).drop offset).take input.pageSize
    (db, .ok { items := sessions, total := sessions.length,
               page := input.page, pageSize := input.pageSize })

/-- The part of the database visible to a single identity: each table
restricted to the rows whose `userId` is that identity. -/
def DB.restrict (db : DB) (u : String) : DB :=
  { languageProfiles := db.languageProfiles.filter (fun p => p.userId == u)
    vocabularyItems := db.vocabularyItems.filter (fun it => it.userId == u)
    practiceSessions := db.practiceSessions.filter (fun s => s.userId == u) }

/-- The rows owned by everyone other than the given identity. -/
def DB.restrictNot (db : DB) (u : String) : DB :=
  { languageProfiles := db.languageProfiles.filter (fun p => !(p.userId == u))
    vocabularyItems := db.vocabularyItems.filter (fun it => !(it.userId == u))
    practiceSessions := db.practiceSessions.filter (fun s => !(s.userId == u)) }

/-! Concrete sample data used to exercise the theorems on closed inputs. -/

def aliceProfile : LanguageProfile :=
  ⟨"p1", "alice", "es", none, none, none, true, 0, 0⟩

def bobProfile : LanguageProfile :=
  ⟨"p2", "bob", "fr", some "en", none, none, true, 0, 0⟩

def aliceItem : VocabularyItem :=
  ⟨"v1", "p1", "alice", "hola", some "hello", none, none, none, none, none,
    none, none, some 2, some 3, 0, 0⟩

def aliceItemB : VocabularyItem :=
  ⟨"v3", "p1", "alice", "adios", none, none, none, none, none, none,
    none, none, none, none, 0, 0⟩

def bobItem : VocabularyItem :=
  ⟨"v2", "p2", "bob", "bonjour", none, none, none, none, none, none,
    none, none, none, none, 0, 0⟩

def aliceSession : PracticeSession :=
  ⟨"s1", "p1", "alice", some "quiz", 1, none, some 10, none, none, 1⟩

def bobSession : PracticeSession :=
  ⟨"s2", "p2", "bob", none, 1, none, none, none, none, 1⟩

def sampleDB : DB :=
  ⟨[aliceProfile, bobProfile], [aliceItem, aliceItemB, bobItem],
    [aliceSession, bobSession]⟩

/-! Helper lemmas about filters scoped by an ownership predicate. -/

theorem filter_filter_of_imp {α : Type} (own p : α → Bool) (l : List α)
    (h : ∀ x, p x = true → own x = true) :
    (l.filter own).filter p = l.filter p := by
  induction l with
  | nil => rfl
  | cons a t ih =>
    by_cases ha : own a = true
    · by_cases hp : p a = true <;> simp [List.filter_cons, ha, hp, ih]
    · have hp : p a = false := by
        cases hpa : p a
        · rfl
        · exact absurd (h a hpa) ha
      simp [List.filter_cons, ha, hp, ih]

theorem countP_filter_of_imp {α : Type} (own p : α → Bool) (l : List α)
    (h : ∀ x, p x = true → own x = true) :
    (l.filter own).countP p = l.countP p := by
  rw [List.countP_eq_length_filter, List.countP_eq_length_filter,
    filter_filter_of_imp own p l h]

theorem filter_not_own_map {α : Type} (own : α → Bool) (f : α → α) (l : List α)
    (hfix : ∀ x, own x = false → f x = x)
    (hpres : ∀ x, own (f x) = own x) :
    (l.map f).filter (fun x => !own x) = l.filter (fun x => !own x) := by
  induction l with
  | nil => rfl
  | cons a t ih =>
    cases ha : own a with
    | false => rw [List.map_cons, hfix a ha]; simp [List.filter_cons, ha, ih]
    | true =>
      have hfa : own (f a) = true := by rw [hpres a, ha]
      simp [List.filter_cons, ha, hfa, ih]

theorem filter_not_own_filter {α : Type} (own q : α → Bool) (l : List α)
    (h : ∀ x, q x = true → own x = true) :
    (l.filter (fun x => !q x)).filter (fun x => !own x) =
      l.filter (fun x => !own x) := by
  induction l with
  | nil => rfl
  | cons a t ih =>
    cases ha : own a with
    | false =>
      have hq : q a = false := by
        cases hqa : q a
        · rfl
        · rw [h a hqa] at ha; exact absurd ha (by simp)
      simp [List.filter_cons, ha, hq, ih]
    | true => by_cases hq : q a = true <;> simp [List.filter_cons, ha, hq, ih]

theorem countP_zero_filter_nil {α : Type} (p : α → Bool) (l : List α)
    (h : l.countP p = 0) : l.filter p = [] := by
  rw [List.countP_eq_length_filter] at h
  exact List.length_eq_zero.mp h

/-- C7: when `upsertVocabularyItem` is called with an `id` and fails
`NOT_FOUND` (profile not owned, or item absent / owned by someone else), the
database is left exactly as it was: no row of any table is mutated. -/
theorem upsertVocabularyItem_notFound_no_mutation
    (db : DB) (u : String) (input : UpsertVocabularyItemInput) (now : Nat)
    (freshId : String) (iid : String) (hid : input.id = some iid)
    (herr : (upsertVocabularyItem db (some u) input now freshId).2 =
      Except.error ActionError.notFound) :
    (upsertVocabularyItem db (some u) input now freshId).1 = db := by
  unfold upsertVocabularyItem requireUser at herr ⊢
  cases hp : (db.languageProfiles.filter
      (fun p => p.id == input.languageProfileId && p.userId == u)).head? with
  | none => simp [hp]
  | some prof =>
    rw [hid]
    cases hv : (db.vocabularyItems.filter
        (fun it => it.id == iid && it.userId == u)).head? with
    | none => simp [hp, hid, hv]
    | some ex => simp [hp, hid, hv] at herr

/-- C7 witness: a concrete cross-user upsert attempt fails `NOT_FOUND` and
leaves the database untouched. -/
theorem upsertVocabularyItem_notFound_no_mutation_witness :
    (upsertVocabularyItem
      (DB.mk [⟨"p1", "alice", "es", none, none, none, true, 0, 0⟩]
        [⟨"v1", "p1", "bob", "hola", none, none, none, none, none, none,
          none, none, none, none, 0, 0⟩] [])
      (some "alice")
      ⟨some "v1", "p1", "hola", none, none, none, none, none, none, none,
        none, none, none⟩ 5 "f").1 =
    DB.mk [⟨"p1", "alice", "es", none, none, none, true, 0, 0⟩]
      [⟨"v1", "p1", "bob", "hola", none, none, none, none, none, none,
        none, none, none, none, 0, 0⟩] [] :=
  upsertVocabularyItem_notFound_no_mutation _ _ _ _ _ "v1" rfl rfl

/-- Unfolds an authenticated `deleteVocabularyItem` call into its delete
result and its `rowsAffected` test. -/
theorem deleteVocabularyItem_eq (db : DB) (u : String) (iid : String) :
    deleteVocabularyItem db (some u) iid =
      (⟨db.languageProfiles,
        db.vocabularyItems.filter (fun it => !(it.id == iid && it.userId == u)),
        db.practiceSessions⟩,
       if db.vocabularyItems.countP
           (fun it => it.id == iid && it.userId == u) = 0 then
         Except.error ActionError.notFound
       else Except.ok ()) := by
  unfold deleteVocabularyItem requireUser
  by_cases hc :
      db.vocabularyItems.countP (fun it => it.id == iid && it.userId == u) = 0
  · have hb : (db.vocabularyItems.countP
        (fun it => it.id == iid && it.userId == u) == 0) = true := by
      simpa using hc
    simp [hb, hc]
  · have hb : (db.vocabularyItems.countP
        (fun it => it.id == iid && it.userId == u) == 0) = false := by
      simpa using hc
    simp [hb, hc]

/-- C6: `deleteVocabularyItem` fails `NOT_FOUND` exactly when the
owner-scoped delete affects zero rows, succeeds with `{ success: true }`
otherwise, and a second delete of the same id right after a successful one
fails `NOT_FOUND`. -/
theorem deleteVocabularyItem_notFound_iff_zero_rows
    (db : DB) (u : String) (iid : String) :
    (((deleteVocabularyItem db (some u) iid).2 =
        Except.error ActionError.notFound) ↔
      db.vocabularyItems.countP (fun it => it.id == iid && it.userId == u) = 0) ∧
    (db.vocabularyItems.countP (fun it => it.id == iid && it.userId == u) ≠ 0 →
      (deleteVocabularyItem db (some u) iid).2 = Except.ok () ∧
      (deleteVocabularyItem (deleteVocabularyItem db (some u) iid).1
        (some u) iid).2 = Except.error ActionError.notFound) := by
  have hsecond : (db.vocabularyItems.filter
      (fun it => !(it.id == iid && it.userId == u))).countP
        (fun it => it.id == iid && it.userId == u) = 0 := by
    rw [List.countP_filter]
    simp
  by_cases hc :
      db.vocabularyItems.countP (fun it => it.id == iid && it.userId == u) = 0
  · rw [deleteVocabularyItem_eq]
    refine ⟨by simp [hc], fun h => absurd hc h⟩
  · rw [deleteVocabularyItem_eq]
    refine ⟨by simp [hc], fun _ => ⟨by simp [hc], ?_⟩⟩
    rw [deleteVocabularyItem_eq]
    simp
    tauto

/-- C6 witness: deleting alice's item `v1` as alice succeeds once and the
immediate second delete fails `NOT_FOUND`. -/
theorem deleteVocabularyItem_twice_witness :
    (deleteVocabularyItem sampleDB (some "alice") "v1").2 = Except.ok () ∧
    (deleteVocabularyItem (deleteVocabularyItem sampleDB (some "alice") "v1").1
      (some "alice") "v1").2 = Except.error ActionError.notFound :=
  (deleteVocabularyItem_notFound_iff_zero_rows sampleDB "alice" "v1").2
    (by decide)

/-- C9: `listVocabularyItems` never consults the `LanguageProfiles` table —
its result is unchanged under any replacement of that table — it always
succeeds for an authenticated caller (never `NOT_FOUND`, whatever the
`languageProfileId`), and when the caller owns no items under that profile id
it returns an empty page with `total = 0`. -/
theorem listVocabularyItems_no_profile_check
    (db : DB) (u : String) (input : ListQueryInput) :
    (∀ L, (listVocabularyItems { db with languageProfiles := L }
        (some u) input).2 = (listVocabularyItems db (some u) input).2) ∧
    (∃ res, listVocabularyItems db (some u) input = (db, Except.ok res) ∧
      (db.vocabularyItems.countP
          (fun it => it.languageProfileId == input.languageProfileId &&
            it.userId == u) = 0 →
        res.items = [] ∧ res.total = 0)) := by
  refine ⟨fun L => rfl, ⟨_, rfl, fun h => ?_⟩⟩
  have hnil := countP_zero_filter_nil _ _ h
  constructor
  · show ((db.vocabularyItems.filter _).drop _).take _ = []
    rw [hnil]
    simp
  · show (((db.vocabularyItems.filter _).drop _).take _).length = 0
    rw [hnil]
    simp

/-- C9 witness: listing as bob under alice's profile id `p1` — a profile bob
does not own — succeeds with an empty page, and the result does not depend on
the profiles table. -/
theorem listVocabularyItems_no_profile_check_witness :
    (listVocabularyItems { sampleDB with languageProfiles := [] }
        (some "bob") ⟨"p1", 1, 20⟩).2 =
      (listVocabularyItems sampleDB (some "bob") ⟨"p1", 1, 20⟩).2 ∧
    ∃ res, listVocabularyItems sampleDB (some "bob") ⟨"p1", 1, 20⟩ =
        (sampleDB, Except.ok res) ∧ res.items = [] ∧ res.total = 0 := by
  obtain ⟨h1, res, hres, himp⟩ :=
    listVocabularyItems_no_profile_check sampleDB "bob" ⟨"p1", 1, 20⟩
  exact ⟨h1 [], res, hres, himp (by decide)⟩

/-- Unfolds an authenticated `listVocabularyItems` call: the page is the
owner-and-profile filter, offset by `(page-1)*pageSize`, limited to
`pageSize`, and `total` is that page's length. -/
theorem listVocabularyItems_eq (db : DB) (u : String) (input : ListQueryInput) :
    listVocabularyItems db (some u) input =
      (db, Except.ok
        { items := ((db.vocabularyItems.filter
            (fun it => it.languageProfileId == input.languageProfileId &&
              it.userId == u)).drop
                ((input.page - 1) * input.pageSize)).take input.pageSize
          total := (((db.vocabularyItems.filter
            (fun it => it.languageProfileId == input.languageProfileId &&
              it.userId == u)).drop
                ((input.page - 1) * input.pageSize)).take input.pageSize).length
          page := input.page
          pageSize := input.pageSize }) := rfl

/-- Unfolds an authenticated `listPracticeSessions` call the same way. -/
theorem listPracticeSessions_eq (db : DB) (u : String) (input : ListQueryInput) :
    listPracticeSessions db (some u) input =
      (db, Except.ok
        { items := ((db.practiceSessions.filter
            (fun s => s.languageProfileId == input.languageProfileId &&
              s.userId == u)).drop
                ((input.page - 1) * input.pageSize)).take input.pageSize
          total := (((db.practiceSessions.filter
            (fun s => s.languageProfileId == input.languageProfileId &&
              s.userId == u)).drop
                ((input.page - 1) * input.pageSize)).take input.pageSize).length
          page := input.page
          pageSize := input.pageSize }) := rfl

/-- C4: in both paginated lists, the returned `total` equals the number of
items in the returned page, and for page 1 over a collection with at least
`pageSize` matching rows it equals `pageSize` — never the true row count. -/
theorem list_total_reports_page_length (db : DB) (u : String)
    (input : ListQueryInput) :
    (∀ res, (listVocabularyItems db (some u) input).2 = Except.ok res →
      res.total = res.items.length ∧
      (input.page = 1 →
        input.pageSize ≤ db.vocabularyItems.countP
          (fun it => it.languageProfileId == input.languageProfileId &&
            it.userId == u) →
        res.total = input.pageSize)) ∧
    (∀ res, (listPracticeSessions db (some u) input).2 = Except.ok res →
      res.total = res.items.length ∧
      (input.page = 1 →
        input.pageSize ≤ db.practiceSessions.countP
          (fun s => s.languageProfileId == input.languageProfileId &&
            s.userId == u) →
        res.total = input.pageSize)) := by
  constructor
  · intro res heq
    rw [listVocabularyItems_eq] at heq
    simp only [Except.ok.injEq] at heq
    subst heq
    refine ⟨rfl, fun hp hle => ?_⟩
    rw [List.countP_eq_length_filter] at hle
    simp [hp, List.length_take]
    omega
  · intro res heq
    rw [listPracticeSessions_eq] at heq
    simp only [Except.ok.injEq] at heq
    subst heq
    refine ⟨rfl, fun hp hle => ?_⟩
    rw [List.countP_eq_length_filter] at hle
    simp [hp, List.length_take]
    omega

/-- C4 witness: alice owns two items under profile `p1`; listing with
`pageSize = 1` reports `total = 1`, the page length, not the row count 2. -/
theorem list_total_reports_page_length_witness :
    ∃ res, (listVocabularyItems sampleDB (some "alice") ⟨"p1", 1, 1⟩).2 =
        Except.ok res ∧ res.total = res.items.length ∧ res.total = 1 := by
  obtain ⟨h1, _⟩ := list_total_reports_page_length sampleDB "alice" ⟨"p1", 1, 1⟩
  exact ⟨_, rfl, (h1 _ rfl).1, (h1 _ rfl).2 rfl (by decide)⟩

/-- C5: for a fixed caller, profile id and page size `n`, page 1 of
`listVocabularyItems` is the first `n` matching items and page 2 the `n`
items immediately after them (offset `(2-1)*n`): their concatenation is the
first `2n` matching items, so nothing is skipped between the pages, and
under unique row ids no item appears in both pages. -/
theorem listVocabularyItems_pagination_coherent
    (db : DB) (u : String) (pid : String) (n : Nat) :
    ∃ res1 res2,
      listVocabularyItems db (some u) ⟨pid, 1, n⟩ = (db, Except.ok res1) ∧
      listVocabularyItems db (some u) ⟨pid, 2, n⟩ = (db, Except.ok res2) ∧
      res1.items = (db.vocabularyItems.filter
        (fun it => it.languageProfileId == pid && it.userId == u)).take n ∧
      res2.items = ((db.vocabularyItems.filter
        (fun it => it.languageProfileId == pid && it.userId == u)).drop n).take n ∧
      res1.items ++ res2.items = (db.vocabularyItems.filter
        (fun it => it.languageProfileId == pid && it.userId == u)).take (n + n) ∧
      ((db.vocabularyItems.map (fun it => it.id)).Nodup →
        ∀ x ∈ res1.items, x ∉ res2.items) := by
  refine ⟨_, _, listVocabularyItems_eq db u ⟨pid, 1, n⟩,
    listVocabularyItems_eq db u ⟨pid, 2, n⟩, by simp, by simp, ?_, ?_⟩
  · simp [List.take_add]
  · intro hnd x hx1 hx2
    simp only at hx1 hx2
    have hL : (db.vocabularyItems.filter
        (fun it => it.languageProfileId == pid && it.userId == u)).Nodup :=
      (List.filter_sublist _).nodup (List.Nodup.of_map _ hnd)
    have htake : ((db.vocabularyItems.filter
        (fun it => it.languageProfileId == pid && it.userId == u)).take
          (n + n)).Nodup :=
      (List.take_sublist _ _).nodup hL
    rw [List.take_add] at htake
    have hdisj := (List.nodup_append.mp htake).2.2
    simp at hx1 hx2
    exact hdisj hx1 hx2

/-- C5 witness: alice's two items under `p1` with `pageSize = 1` — page 1
and page 2 concatenate to both items in order and share no item. -/
theorem listVocabularyItems_pagination_coherent_witness :
    ∃ res1 res2,
      listVocabularyItems sampleDB (some "alice") ⟨"p1", 1, 1⟩ =
        (sampleDB, Except.ok res1) ∧
      listVocabularyItems sampleDB (some "alice") ⟨"p1", 2, 1⟩ =
        (sampleDB, Except.ok res2) ∧
      res1.items ++ res2.items = [aliceItem, aliceItemB] ∧
      ∀ x ∈ res1.items, x ∉ res2.items := by
  obtain ⟨r1, r2, h1, h2, hi1, hi2, hcat, hdisj⟩ :=
    listVocabularyItems_pagination_coherent sampleDB "alice" "p1" 1
  refine ⟨r1, r2, h1, h2, ?_, hdisj (by decide)⟩
  rw [hcat]
  decide

/-- C2: after a successful `upsertVocabularyItem` with a supplied `id`, the
stored row carries exactly the input's value for every schema field —
optional fields omitted from the input (`none`) are cleared on the row, not
merged — and `updatedAt` is the call time. -/
theorem upsertVocabularyItem_overwrites (db db' : DB) (u : String)
    (input : UpsertVocabularyItemInput) (now : Nat) (freshId : String)
    (iid : String) (ret : VocabularyItem)
    (hid : input.id = some iid)
    (h : upsertVocabularyItem db (some u) input now freshId =
      (db', Except.ok ret)) :
    (∃ it ∈ db'.vocabularyItems, it.id = iid ∧ it.userId = u) ∧
    ∀ it ∈ db'.vocabularyItems, it.id = iid → it.userId = u →
      it.languageProfileId = input.languageProfileId ∧
      it.term = input.term ∧
      it.translation = input.translation ∧
      it.partOfSpeech = input.partOfSpeech ∧
      it.exampleSentence = input.exampleSentence ∧
      it.exampleTranslation = input.exampleTranslation ∧
      it.difficulty = input.difficulty ∧
      it.tags = input.tags ∧
      it.lastReviewedAt = input.lastReviewedAt ∧
      it.nextReviewAt = input.nextReviewAt ∧
      it.successStreak = input.successStreak ∧
      it.totalReviews = input.totalReviews ∧
      it.updatedAt = now := by
  unfold upsertVocabularyItem requireUser at h
  cases hp : (db.languageProfiles.filter
      (fun p => p.id == input.languageProfileId && p.userId == u)).head? with
  | none => simp [hp] at h
  | some prof =>
    cases hv : (db.vocabularyItems.filter
        (fun it => it.id == iid && it.userId == u)).head? with
    | none => simp [hp, hid, hv] at h
    | some existing =>
      simp only [hp, hid, hv, Prod.mk.injEq] at h
      obtain ⟨hdb, -⟩ := h
      subst hdb
      have hexq := List.of_mem_filter (List.mem_of_mem_head? hv)
      simp only [Bool.and_eq_true, beq_iff_eq] at hexq
      have hexmem : existing ∈ db.vocabularyItems :=
        List.mem_of_mem_filter (List.mem_of_mem_head? hv)
      constructor
      · refine ⟨_, List.mem_map_of_mem _ hexmem, ?_⟩
        have hcond : (existing.id == iid && existing.userId == u) = true := by
          simp [hexq.1, hexq.2]
        simp only [hcond, if_true]
        exact ⟨hexq.1, hexq.2⟩
      · intro it hit hitid hituid
        obtain ⟨x, hx, rfl⟩ := List.mem_map.mp hit
        cases hcond : (x.id == iid && x.userId == u) with
        | true => simp [hcond]
        | false =>
          simp only [hcond, Bool.false_eq_true, if_false] at hitid hituid
          simp [hitid, hituid] at hcond

/-- C2 witness: upserting alice's item `v1` with only `term` supplied clears
the previously stored `translation`, `successStreak` and `totalReviews` to
`none` and stamps `updatedAt = 9`. -/
theorem upsertVocabularyItem_overwrites_witness :
    (∃ it ∈ (upsertVocabularyItem sampleDB (some "alice")
        ⟨some "v1", "p1", "salut", none, none, none, none, none, none, none,
          none, none, none⟩ 9 "f").1.vocabularyItems,
      it.id = "v1" ∧ it.userId = "alice") ∧
    ∀ it ∈ (upsertVocabularyItem sampleDB (some "alice")
        ⟨some "v1", "p1", "salut", none, none, none, none, none, none, none,
          none, none, none⟩ 9 "f").1.vocabularyItems,
      it.id = "v1" → it.userId = "alice" →
      it.languageProfileId = "p1" ∧ it.term = "salut" ∧
      it.translation = none ∧ it.partOfSpeech = none ∧
      it.exampleSentence = none ∧ it.exampleTranslation = none ∧
      it.difficulty = none ∧ it.tags = none ∧
      it.lastReviewedAt = none ∧ it.nextReviewAt = none ∧
      it.successStreak = none ∧ it.totalReviews = none ∧
      it.updatedAt = 9 :=
  upsertVocabularyItem_overwrites sampleDB _ "alice"
    ⟨some "v1", "p1", "salut", none, none, none, none, none, none, none,
      none, none, none⟩ 9 "f" "v1" _ rfl rfl

/-- C3: a successful `updateLanguageProfile` leaves every omitted field of
the stored row at its pre-update value, overwrites every supplied field,
refreshes `updatedAt`, and never changes `id`, `userId` or `createdAt`
(row ids assumed unique, as the primary-key column guarantees). -/
theorem updateLanguageProfile_merges (db db' : DB) (u : String)
    (input : UpdateLanguageProfileInput) (now : Nat) (ret : LanguageProfile)
    (hwf : (db.languageProfiles.map (fun p => p.id)).Nodup)
    (h : updateLanguageProfile db (some u) input now = (db', Except.ok ret)) :
    (∃ p ∈ db.languageProfiles, p.id = input.id ∧ p.userId = u) ∧
    ∀ p ∈ db.languageProfiles, p.id = input.id → p.userId = u →
      ∃ p' ∈ db'.languageProfiles,
        p'.id = p.id ∧ p'.userId = p.userId ∧ p'.createdAt = p.createdAt ∧
        p'.updatedAt = now ∧
        (input.targetLanguage = none → p'.targetLanguage = p.targetLanguage) ∧
        (∀ v, input.targetLanguage = some v → p'.targetLanguage = v) ∧
        (input.nativeLanguage = none → p'.nativeLanguage = p.nativeLanguage) ∧
        (∀ v, input.nativeLanguage = some v → p'.nativeLanguage = some v) ∧
        (input.proficiencyLevel = none →
          p'.proficiencyLevel = p.proficiencyLevel) ∧
        (∀ v, input.proficiencyLevel = some v →
          p'.proficiencyLevel = some v) ∧
        (input.goals = none → p'.goals = p.goals) ∧
        (∀ v, input.goals = some v → p'.goals = some v) ∧
        (input.isActive = none → p'.isActive = p.isActive) ∧
        (∀ v, input.isActive = some v → p'.isActive = v) := by
  unfold updateLanguageProfile requireUser at h
  cases hp : (db.languageProfiles.filter
      (fun p => p.id == input.id && p.userId == u)).head? with
  | none => simp [hp] at h
  | some existing =>
    simp only [hp, Prod.mk.injEq] at h
    obtain ⟨hdb, -⟩ := h
    subst hdb
    have hexq := List.of_mem_filter (List.mem_of_mem_head? hp)
    simp only [Bool.and_eq_true, beq_iff_eq] at hexq
    have hexmem : existing ∈ db.languageProfiles :=
      List.mem_of_mem_filter (List.mem_of_mem_head? hp)
    refine ⟨⟨existing, hexmem, hexq.1, hexq.2⟩, ?_⟩
    intro p hpmem hpid huid
    have hpe : p = existing :=
      List.inj_on_of_nodup_map hwf hpmem hexmem (by rw [hpid, hexq.1])
    subst hpe
    refine ⟨_, List.mem_map_of_mem _ hpmem, ?_⟩
    have hcond : (p.id == input.id && p.userId == u) = true := by
      simp [hpid, huid]
    refine ⟨?_, ?_, ?_, ?_, fun hn => ?_, fun v hv => ?_, fun hn => ?_,
      fun v hv => ?_, fun hn => ?_, fun v hv => ?_, fun hn => ?_,
      fun v hv => ?_, fun hn => ?_, fun v hv => ?_⟩ <;>
      simp [hcond, *]

/-- C3 witness: alice updates `p1` supplying `targetLanguage` and `goals`
only — the stored row overwrites those two, keeps `nativeLanguage`,
`proficiencyLevel` and `isActive`, refreshes `updatedAt`, and keeps `id`,
`userId`, `createdAt`. -/
theorem updateLanguageProfile_merges_witness :
    ∃ p' ∈ (updateLanguageProfile sampleDB (some "alice")
        ⟨"p1", some "de", none, none, some "exam", none⟩ 7).1.languageProfiles,
      p'.id = "p1" ∧ p'.userId = "alice" ∧ p'.createdAt = 0 ∧
      p'.updatedAt = 7 ∧ p'.targetLanguage = "de" ∧ p'.nativeLanguage = none ∧
      p'.goals = some "exam" ∧ p'.isActive = true := by
  obtain ⟨-, hall⟩ := updateLanguageProfile_merges sampleDB _ "alice"
    ⟨"p1", some "de", none, none, some "exam", none⟩ 7 _ (by decide) rfl
  obtain ⟨p', hmem, h1, h2, h3, h4, -, h6t, h5n, -, -, -, -, h6g, h5a, -⟩ :=
    hall aliceProfile (by decide) rfl rfl
  exact ⟨p', hmem, h1.trans rfl, h2.trans rfl, h3.trans rfl, h4,
    h6t "de" rfl, (h5n rfl).trans rfl, h6g "exam" rfl, (h5a rfl).trans rfl⟩

theorem forall2_map_self {α : Type} (R : α → α → Prop) (f : α → α)
    (l : List α) (h : ∀ x, R x (f x)) : List.Forall₂ R l (l.map f) := by
  induction l with
  | nil => exact List.Forall₂.nil
  | cons a t ih => exact List.Forall₂.cons (h a) ih

/-- C10: a successful `completePracticeSession` leaves the profiles and
vocabulary tables untouched and, row by row, preserves every session's
`id`, `languageProfileId`, `userId`, `mode`, `startedAt` and `createdAt` —
only `totalQuestions`, `correctAnswers`, `notes` and `endedAt` can change —
and the returned session carries those six fields unchanged from the prior
stored row. -/
theorem completePracticeSession_frame (db db' : DB) (u : String)
    (input : CompletePracticeSessionInput) (now : Nat) (ret : PracticeSession)
    (h : completePracticeSession db (some u) input now =
      (db', Except.ok ret)) :
    db'.languageProfiles = db.languageProfiles ∧
    db'.vocabularyItems = db.vocabularyItems ∧
    List.Forall₂ (fun s s' => s'.id = s.id ∧
      s'.languageProfileId = s.languageProfileId ∧ s'.userId = s.userId ∧
      s'.mode = s.mode ∧ s'.startedAt = s.startedAt ∧
      s'.createdAt = s.createdAt)
      db.practiceSessions db'.practiceSessions ∧
    ∃ s ∈ db.practiceSessions, s.id = input.id ∧ s.userId = u ∧
      ret.id = s.id ∧ ret.languageProfileId = s.languageProfileId ∧
      ret.userId = s.userId ∧ ret.mode = s.mode ∧
      ret.startedAt = s.startedAt ∧ ret.createdAt = s.createdAt := by
  unfold completePracticeSession requireUser at h
  cases hs : (db.practiceSessions.filter
      (fun s => s.id == input.id && s.userId == u)).head? with
  | none => simp [hs] at h
  | some session =>
    simp only [hs, Prod.mk.injEq, Except.ok.injEq] at h
    obtain ⟨hdb, hret⟩ := h
    subst hdb
    subst hret
    have hsq := List.of_mem_filter (List.mem_of_mem_head? hs)
    simp only [Bool.and_eq_true, beq_iff_eq] at hsq
    have hsmem : session ∈ db.practiceSessions :=
      List.mem_of_mem_filter (List.mem_of_mem_head? hs)
    refine ⟨rfl, rfl, ?_, session, hsmem, hsq.1, hsq.2,
      rfl, rfl, rfl, rfl, rfl, rfl⟩
    exact forall2_map_self _ _ _
      (fun x => by cases hc : (x.id == input.id && x.userId == u) <;>
        simp [hc])

/-- C10 witness: completing alice's open session `s1` leaves the other two
tables untouched and preserves the six frame fields of every session row. -/
theorem completePracticeSession_frame_witness :
    (completePracticeSession sampleDB (some "alice")
        ⟨"s1", none, some 8, none, some 4⟩ 9).1.languageProfiles =
      sampleDB.languageProfiles ∧
    (completePracticeSession sampleDB (some "alice")
        ⟨"s1", none, some 8, none, some 4⟩ 9).1.vocabularyItems =
      sampleDB.vocabularyItems ∧
    List.Forall₂ (fun s s' => s'.id = s.id ∧
      s'.languageProfileId = s.languageProfileId ∧ s'.userId = s.userId ∧
      s'.mode = s.mode ∧ s'.startedAt = s.startedAt ∧
      s'.createdAt = s.createdAt)
      sampleDB.practiceSessions
      (completePracticeSession sampleDB (some "alice")
        ⟨"s1", none, some 8, none, some 4⟩ 9).1.practiceSessions := by
  obtain ⟨h1, h2, h3, -⟩ := completePracticeSession_frame sampleDB _ "alice"
    ⟨"s1", none, some 8, none, some 4⟩ 9 _ rfl
  exact ⟨h1, h2, h3⟩

/-- C8: every successful `startPracticeSession` returns and stores a session
with `endedAt = null`, `correctAnswers = null` and
`startedAt = createdAt = now`; every successful `completePracticeSession`
sets `endedAt` to the supplied value (or `now` when omitted) and, for each of
`totalQuestions`, `correctAnswers` and `notes`, keeps the prior stored value
when omitted and overwrites it when supplied, both on the returned session
and on the stored row (row ids assumed unique). -/
theorem practiceSession_lifecycle :
    (∀ (db db' : DB) (u : String) (input : StartPracticeSessionInput)
        (now : Nat) (freshId : String) (ret : PracticeSession),
      startPracticeSession db (some u) input now freshId =
        (db', Except.ok ret) →
      ret.endedAt = none ∧ ret.correctAnswers = none ∧ ret.startedAt = now ∧
      ret.createdAt = now ∧
      ∃ s ∈ db'.practiceSessions, s.id = ret.id ∧ s.endedAt = none ∧
        s.correctAnswers = none ∧ s.startedAt = now ∧ s.createdAt = now) ∧
    (∀ (db db' : DB) (u : String) (input : CompletePracticeSessionInput)
        (now : Nat) (ret : PracticeSession),
      (db.practiceSessions.map (fun s => s.id)).Nodup →
      completePracticeSession db (some u) input now = (db', Except.ok ret) →
      ret.endedAt = some (input.endedAt.getD now) ∧
      ∀ s ∈ db.practiceSessions, s.id = input.id → s.userId = u →
        (input.totalQuestions = none → ret.totalQuestions = s.totalQuestions) ∧
        (∀ v, input.totalQuestions = some v → ret.totalQuestions = some v) ∧
        (input.correctAnswers = none → ret.correctAnswers = s.correctAnswers) ∧
        (∀ v, input.correctAnswers = some v → ret.correctAnswers = some v) ∧
        (input.notes = none → ret.notes = s.notes) ∧
        (∀ v, input.notes = some v → ret.notes = some v) ∧
        ∃ s' ∈ db'.practiceSessions, s'.id = s.id ∧
          s'.endedAt = some (input.endedAt.getD now) ∧
          (input.totalQuestions = none →
            s'.totalQuestions = s.totalQuestions) ∧
          (∀ v, input.totalQuestions = some v → s'.totalQuestions = some v) ∧
          (input.correctAnswers = none →
            s'.correctAnswers = s.correctAnswers) ∧
          (∀ v, input.correctAnswers = some v → s'.correctAnswers = some v) ∧
          (input.notes = none → s'.notes = s.notes) ∧
          (∀ v, input.notes = some v → s'.notes = some v)) := by
  constructor
  · intro db db' u input now freshId ret h
    unfold startPracticeSession requireUser at h
    cases hp : (db.languageProfiles.filter
        (fun p => p.id == input.languageProfileId && p.userId == u)).head? with
    | none => simp [hp] at h
    | some prof =>
      simp only [hp, Prod.mk.injEq, Except.ok.injEq] at h
      obtain ⟨hdb, hret⟩ := h
      subst hdb
      subst hret
      exact ⟨rfl, rfl, rfl, rfl, _, by simp, rfl, rfl, rfl, rfl, rfl⟩
  · intro db db' u input now ret hwf h
    unfold completePracticeSession requireUser at h
    cases hs : (db.practiceSessions.filter
        (fun s => s.id == input.id && s.userId == u)).head? with
    | none => simp [hs] at h
    | some session =>
      simp only [hs, Prod.mk.injEq, Except.ok.injEq] at h
      obtain ⟨hdb, hret⟩ := h
      subst hdb
      subst hret
      have hsq := List.of_mem_filter (List.mem_of_mem_head? hs)
      simp only [Bool.and_eq_true, beq_iff_eq] at hsq
      have hsmem : session ∈ db.practiceSessions :=
        List.mem_of_mem_filter (List.mem_of_mem_head? hs)
      refine ⟨rfl, ?_⟩
      intro s hsm hsid hsu
      have hse : s = session :=
        List.inj_on_of_nodup_map hwf hsm hsmem (by rw [hsid, hsq.1])
      subst hse
      have hcond : (s.id == input.id && s.userId == u) = true := by
        simp [hsid, hsu]
      refine ⟨fun hn => by simp [hn, Option.or],
        fun v hv => by simp [hv, Option.or],
        fun hn => by simp [hn, Option.or],
        fun v hv => by simp [hv, Option.or],
        fun hn => by simp [hn, Option.or],
        fun v hv => by simp [hv, Option.or],
        _, List.mem_map_of_mem _ hsm, ?_⟩
      refine ⟨?_, ?_, fun hn => ?_, fun v hv => ?_, fun hn => ?_,
        fun v hv => ?_, fun hn => ?_, fun v hv => ?_⟩ <;>
        simp [hcond, *]

/-- C8 witness: starting a session for alice's `p1` stores and returns an
open session, and completing `s1` with only `correctAnswers` and `endedAt`
supplied keeps the stored `totalQuestions` and `notes` and sets
`endedAt = 4`. -/
theorem practiceSession_lifecycle_witness :
    (∃ ret, startPracticeSession sampleDB (some "alice")
        ⟨"p1", some "quiz", some 10, none⟩ 3 "s9" =
        ((startPracticeSession sampleDB (some "alice")
          ⟨"p1", some "quiz", some 10, none⟩ 3 "s9").1, Except.ok ret) ∧
      ret.endedAt = none ∧ ret.correctAnswers = none ∧ ret.startedAt = 3 ∧
      ret.createdAt = 3) ∧
    (∃ ret, completePracticeSession sampleDB (some "alice")
        ⟨"s1", none, some 8, none, some 4⟩ 9 =
        ((completePracticeSession sampleDB (some "alice")
          ⟨"s1", none, some 8, none, some 4⟩ 9).1, Except.ok ret) ∧
      ret.endedAt = some 4 ∧ ret.totalQuestions = some 10 ∧
      ret.correctAnswers = some 8 ∧ ret.notes = none) := by
  constructor
  · obtain ⟨h1, h2, h3, h4, -⟩ := practiceSession_lifecycle.1 sampleDB _
      "alice" ⟨"p1", some "quiz", some 10, none⟩ 3 "s9" _ rfl
    exact ⟨_, rfl, h1, h2, h3, h4⟩
  · obtain ⟨h1, hall⟩ := practiceSession_lifecycle.2 sampleDB _ "alice"
      ⟨"s1", none, some 8, none, some 4⟩ 9 _ (by decide) rfl
    obtain ⟨htq, -, -, hca, hn, -, -⟩ :=
      hall aliceSession (by decide) rfl rfl
    exact ⟨_, rfl, h1, (htq rfl).trans rfl, hca 8 rfl, (hn rfl).trans rfl⟩

/-! Unfolding lemmas for the remaining authenticated handlers, with the
caller substituted for the identity gate's result. -/

theorem updateLanguageProfile_some_eq (db : DB) (u : String)
    (input : UpdateLanguageProfileInput) (now : Nat) :
    updateLanguageProfile db (some u) input now =
      match (db.languageProfiles.filter
          (fun p => p.id == input.id && p.userId == u)).head? with
      | none => (db, Except.error ActionError.notFound)
      | some existing =>
        ({ db with languageProfiles := db.languageProfiles.map (fun p => if p.id == input.id && p.userId == u then
              { p with
                targetLanguage := input.targetLanguage.getD existing.targetLanguage
                nativeLanguage := input.nativeLanguage.or existing.nativeLanguage
                proficiencyLevel :=
                  input.proficiencyLevel.or existing.proficiencyLevel
                goals := input.goals.or existing.goals
                isActive := input.isActive.getD existing.isActive
                updatedAt := now }
            else p) },
         Except.ok { existing with
            targetLanguage := input.targetLanguage.getD existing.targetLanguage
            nativeLanguage := input.nativeLanguage.or existing.nativeLanguage
            proficiencyLevel :=
              input.proficiencyLevel.or existing.proficiencyLevel
            goals := input.goals.or existing.goals
            isActive := input.isActive.getD existing.isActive
            updatedAt := now }) := rfl

theorem listMyLanguageProfiles_some_eq (db : DB) (u : String)
    (includeInactive : Bool) :
    listMyLanguageProfiles db (some u) includeInactive =
      (db, Except.ok
        { items := db.languageProfiles.filter
            (fun p => if includeInactive then p.userId == u
              else p.userId == u && p.isActive == true)
          total := (db.languageProfiles.filter
            (fun p => if includeInactive then p.userId == u
              else p.userId == u && p.isActive == true)).length }) := rfl

theorem upsertVocabularyItem_some_eq (db : DB) (u : String)
    (input : UpsertVocabularyItemInput) (now : Nat) (freshId : String) :
    upsertVocabularyItem db (some u) input now freshId =
      match (db.languageProfiles.filter
          (fun p => p.id == input.languageProfileId && p.userId == u)).head? with
      | none => (db, Except.error ActionError.notFound)
      | some _profile =>
        match input.id with
        | some iid =>
          match (db.vocabularyItems.filter
              (fun it => it.id == iid && it.userId == u)).head? with
          | none => (db, Except.error ActionError.notFound)
          | some existing =>
            ({ db with vocabularyItems := db.vocabularyItems.map (fun it => if it.id == iid && it.userId == u then
                  { it with
                    languageProfileId := input.languageProfileId
                    term := input.term
                    translation := input.translation
                    partOfSpeech := input.partOfSpeech
                    exampleSentence := input.exampleSentence
                    exampleTranslation := input.exampleTranslation
                    difficulty := input.difficulty
                    tags := input.tags
                    lastReviewedAt := input.lastReviewedAt
                    nextReviewAt := input.nextReviewAt
                    successStreak := input.successStreak
                    totalReviews := input.totalReviews
                    updatedAt := now }
                else it) },
             Except.ok { existing with
                languageProfileId := input.languageProfileId
                term := input.term
                translation := input.translation.or existing.translation
                partOfSpeech := input.partOfSpeech.or existing.partOfSpeech
                exampleSentence :=
                  input.exampleSentence.or existing.exampleSentence
                exampleTranslation :=
                  input.exampleTranslation.or existing.exampleTranslation
                difficulty := input.difficulty.or existing.difficulty
                tags := input.tags.or existing.tags
                lastReviewedAt := input.lastReviewedAt.or existing.lastReviewedAt
                nextReviewAt := input.nextReviewAt.or existing.nextReviewAt
                successStreak := input.successStreak.or existing.successStreak
                totalReviews := input.totalReviews.or existing.totalReviews
                updatedAt := now
                userId := u })
        | none =>
          ({ db with vocabularyItems := db.vocabularyItems ++
              [{ id := freshId
                 languageProfileId := input.languageProfileId
                 userId := u
                 term := input.term
                 translation := input.translation
                 partOfSpeech := input.partOfSpeech
                 exampleSentence := input.exampleSentence
                 exampleTranslation := input.exampleTranslation
                 difficulty := input.difficulty
                 tags := input.tags
                 lastReviewedAt := input.lastReviewedAt
                 nextReviewAt := input.nextReviewAt
                 successStreak := input.successStreak
                 totalReviews := input.totalReviews
                 createdAt := now
                 updatedAt := now }] },
           Except.ok
             { id := freshId
               languageProfileId := input.languageProfileId
               userId := u
               term := input.term
               translation := input.translation
               partOfSpeech := input.partOfSpeech
               exampleSentence := input.exampleSentence
               exampleTranslation := input.exampleTranslation
               difficulty := input.difficulty
               tags := input.tags
               lastReviewedAt := input.lastReviewedAt
               nextReviewAt := input.nextReviewAt
               successStreak := input.successStreak
               totalReviews := input.totalReviews
               createdAt := now
               updatedAt := now }) := rfl

theorem startPracticeSession_some_eq (db : DB) (u : String)
    (input : StartPracticeSessionInput) (now : Nat) (freshId : String) :
    startPracticeSession db (some u) input now freshId =
      match (db.languageProfiles.filter
          (fun p => p.id == input.languageProfileId && p.userId == u)).head? with
      | none => (db, Except.error ActionError.notFound)
      | some _profile =>
        ({ db with practiceSessions := db.practiceSessions ++
            [{ id := freshId
               languageProfileId := input.languageProfileId
               userId := u
               mode := input.mode
               startedAt := now
               endedAt := none
               totalQuestions := input.totalQuestions
               correctAnswers := none
               notes := input.notes
               createdAt := now }] },
         Except.ok
           { id := freshId
             languageProfileId := input.languageProfileId
             userId := u
             mode := input.mode
             startedAt := now
             endedAt := none
             totalQuestions := input.totalQuestions
             correctAnswers := none
             notes := input.notes
             createdAt := now }) := rfl

theorem completePracticeSession_some_eq (db : DB) (u : String)
    (input : CompletePracticeSessionInput) (now : Nat) :
    completePracticeSession db (some u) input now =
      match (db.practiceSessions.filter
          (fun s => s.id == input.id && s.userId == u)).head? with
      | none => (db, Except.error ActionError.notFound)
      | some session =>
        ({ db with practiceSessions := db.practiceSessions.map (fun s => if s.id == input.id && s.userId == u then
              { s with
                totalQuestions := input.totalQuestions.or s.totalQuestions
                correctAnswers := input.correctAnswers.or s.correctAnswers
                notes := input.notes.or s.notes
                endedAt := some (input.endedAt.getD now) }
            else s) },
         Except.ok { session with
            totalQuestions := input.totalQuestions.or session.totalQuestions
            correctAnswers := input.correctAnswers.or session.correctAnswers
            notes := input.notes.or session.notes
            endedAt := some (input.endedAt.getD now) }) := rfl

theorem and_snd {a b : Bool} (h : (a && b) = true) : b = true := by
  rw [Bool.and_eq_true] at h
  exact h.2

theorem and_fst {a b : Bool} (h : (a && b) = true) : a = true := by
  rw [Bool.and_eq_true] at h
  exact h.1

/-! Result-independence lemmas: each operation computes the same observable
result on `db` and on `db.restrict u`, the caller-owned part of `db`. -/

theorem updateLanguageProfile_restrict_eq (db : DB) (u : String)
    (input : UpdateLanguageProfileInput) (now : Nat) :
    (updateLanguageProfile db (some u) input now).2 =
      (updateLanguageProfile (db.restrict u) (some u) input now).2 := by
  have e1 : ((db.restrict u).languageProfiles.filter
      (fun p => p.id == input.id && p.userId == u)) =
      db.languageProfiles.filter
        (fun p => p.id == input.id && p.userId == u) :=
    filter_filter_of_imp _ _ _ (fun x hx => and_snd hx)
  rw [updateLanguageProfile_some_eq, updateLanguageProfile_some_eq, e1]
  cases hh : (db.languageProfiles.filter
      (fun p => p.id == input.id && p.userId == u)).head? <;> simp [hh]

theorem listMyLanguageProfiles_restrict_eq (db : DB) (u : String)
    (includeInactive : Bool) :
    (listMyLanguageProfiles db (some u) includeInactive).2 =
      (listMyLanguageProfiles (db.restrict u) (some u) includeInactive).2 := by
  have e1 : ((db.restrict u).languageProfiles.filter
      (fun p => if includeInactive then p.userId == u
        else p.userId == u && p.isActive == true)) =
      db.languageProfiles.filter
        (fun p => if includeInactive then p.userId == u
          else p.userId == u && p.isActive == true) :=
    filter_filter_of_imp _ _ _ (fun x hx => by
      cases includeInactive with
      | true => simpa using hx
      | false => exact and_fst (by simpa using hx))
  rw [listMyLanguageProfiles_some_eq, listMyLanguageProfiles_some_eq, e1]

theorem upsertVocabularyItem_restrict_eq (db : DB) (u : String)
    (input : UpsertVocabularyItemInput) (now : Nat) (freshId : String) :
    (upsertVocabularyItem db (some u) input now freshId).2 =
      (upsertVocabularyItem (db.restrict u) (some u) input now freshId).2 := by
  have e1 : ((db.restrict u).languageProfiles.filter
      (fun p => p.id == input.languageProfileId && p.userId == u)) =
      db.languageProfiles.filter
        (fun p => p.id == input.languageProfileId && p.userId == u) :=
    filter_filter_of_imp _ _ _ (fun x hx => and_snd hx)
  have e2 : ∀ iid : String, ((db.restrict u).vocabularyItems.filter
      (fun it => it.id == iid && it.userId == u)) =
      db.vocabularyItems.filter (fun it => it.id == iid && it.userId == u) :=
    fun iid => filter_filter_of_imp _ _ _ (fun x hx => and_snd hx)
  rw [upsertVocabularyItem_some_eq, upsertVocabularyItem_some_eq, e1]
  simp only [e2]
  cases hp : (db.languageProfiles.filter
      (fun p => p.id == input.languageProfileId && p.userId == u)).head? with
  | none => simp [hp]
  | some prof =>
    cases hid : input.id with
    | none => simp [hp, hid]
    | some iid =>
      cases hv : (db.vocabularyItems.filter
          (fun it => it.id == iid && it.userId == u)).head? <;>
        simp [hp, hid, hv]

theorem deleteVocabularyItem_restrict_eq (db : DB) (u : String)
    (id : String) :
    (deleteVocabularyItem db (some u) id).2 =
      (deleteVocabularyItem (db.restrict u) (some u) id).2 := by
  have ec : ((db.restrict u).vocabularyItems.countP
      (fun it => it.id == id && it.userId == u)) =
      db.vocabularyItems.countP (fun it => it.id == id && it.userId == u) :=
    countP_filter_of_imp _ _ _ (fun x hx => and_snd hx)
  rw [deleteVocabularyItem_eq, deleteVocabularyItem_eq, ec]

theorem listVocabularyItems_restrict_eq (db : DB) (u : String)
    (input : ListQueryInput) :
    (listVocabularyItems db (some u) input).2 =
      (listVocabularyItems (db.restrict u) (some u) input).2 := by
  have e1 : ((db.restrict u).vocabularyItems.filter
      (fun it => it.languageProfileId == input.languageProfileId &&
        it.userId == u)) =
      db.vocabularyItems.filter
        (fun it => it.languageProfileId == input.languageProfileId &&
          it.userId == u) :=
    filter_filter_of_imp _ _ _ (fun x hx => and_snd hx)
  rw [listVocabularyItems_eq, listVocabularyItems_eq, e1]

theorem startPracticeSession_restrict_eq (db : DB) (u : String)
    (input : StartPracticeSessionInput) (now : Nat) (freshId : String) :
    (startPracticeSession db (some u) input now freshId).2 =
      (startPracticeSession (db.restrict u) (some u) input now freshId).2 := by
  have e1 : ((db.restrict u).languageProfiles.filter
      (fun p => p.id == input.languageProfileId && p.userId == u)) =
      db.languageProfiles.filter
        (fun p => p.id == input.languageProfileId && p.userId == u) :=
    filter_filter_of_imp _ _ _ (fun x hx => and_snd hx)
  rw [startPracticeSession_some_eq, startPracticeSession_some_eq, e1]
  cases hp : (db.languageProfiles.filter
      (fun p => p.id == input.languageProfileId && p.userId == u)).head? <;>
    simp [hp]

theorem completePracticeSession_restrict_eq (db : DB) (u : String)
    (input : CompletePracticeSessionInput) (now : Nat) :
    (completePracticeSession db (some u) input now).2 =
      (completePracticeSession (db.restrict u) (some u) input now).2 := by
  have e1 : ((db.restrict u).practiceSessions.filter
      (fun s => s.id == input.id && s.userId == u)) =
      db.practiceSessions.filter
        (fun s => s.id == input.id && s.userId == u) :=
    filter_filter_of_imp _ _ _ (fun x hx => and_snd hx)
  rw [completePracticeSession_some_eq, completePracticeSession_some_eq, e1]
  cases hh : (db.practiceSessions.filter
      (fun s => s.id == input.id && s.userId == u)).head? <;> simp [hh]

theorem listPracticeSessions_restrict_eq (db : DB) (u : String)
    (input : ListQueryInput) :
    (listPracticeSessions db (some u) input).2 =
      (listPracticeSessions (db.restrict u) (some u) input).2 := by
  have e1 : ((db.restrict u).practiceSessions.filter
      (fun s => s.languageProfileId == input.languageProfileId &&
        s.userId == u)) =
      db.practiceSessions.filter
        (fun s => s.languageProfileId == input.languageProfileId &&
          s.userId == u) :=
    filter_filter_of_imp _ _ _ (fun x hx => and_snd hx)
  rw [listPracticeSessions_eq, listPracticeSessions_eq, e1]

/-! Frame lemmas: no operation run as `u` changes any row owned by another
identity (`DB.restrictNot u` is invariant). -/

theorem restrictNot_map_profiles (db : DB) (u : String)
    (f : LanguageProfile → LanguageProfile)
    (hfix : ∀ x, (x.userId == u) = false → f x = x)
    (hpres : ∀ x, ((f x).userId == u) = (x.userId == u)) :
    DB.restrictNot { db with
      languageProfiles := db.languageProfiles.map f } u =
      DB.restrictNot db u := by
  unfold DB.restrictNot
  simp only [DB.mk.injEq, and_true, true_and]
  exact filter_not_own_map _ f _ hfix hpres

theorem restrictNot_map_vocab (db : DB) (u : String)
    (f : VocabularyItem → VocabularyItem)
    (hfix : ∀ x, (x.userId == u) = false → f x = x)
    (hpres : ∀ x, ((f x).userId == u) = (x.userId == u)) :
    DB.restrictNot { db with
      vocabularyItems := db.vocabularyItems.map f } u =
      DB.restrictNot db u := by
  unfold DB.restrictNot
  simp only [DB.mk.injEq, and_true, true_and]
  exact filter_not_own_map _ f _ hfix hpres

theorem restrictNot_map_sessions (db : DB) (u : String)
    (f : PracticeSession → PracticeSession)
    (hfix : ∀ x, (x.userId == u) = false → f x = x)
    (hpres : ∀ x, ((f x).userId == u) = (x.userId == u)) :
    DB.restrictNot { db with
      practiceSessions := db.practiceSessions.map f } u =
      DB.restrictNot db u := by
  unfold DB.restrictNot
  simp only [DB.mk.injEq, and_true, true_and]
  exact filter_not_own_map _ f _ hfix hpres

theorem restrictNot_append_vocab (db : DB) (u : String) (it : VocabularyItem)
    (h : (it.userId == u) = true) :
    DB.restrictNot { db with
      vocabularyItems := db.vocabularyItems ++ [it] } u =
      DB.restrictNot db u := by
  unfold DB.restrictNot
  simp only [DB.mk.injEq, and_true, true_and]
  rw [List.filter_append]
  simp [h]

theorem restrictNot_append_sessions (db : DB) (u : String)
    (s : PracticeSession) (h : (s.userId == u) = true) :
    DB.restrictNot { db with
      practiceSessions := db.practiceSessions ++ [s] } u =
      DB.restrictNot db u := by
  unfold DB.restrictNot
  simp only [DB.mk.injEq, and_true, true_and]
  rw [List.filter_append]
  simp [h]

theorem restrictNot_filter_vocab (db : DB) (u : String)
    (q : VocabularyItem → Bool)
    (himp : ∀ x, q x = true → (x.userId == u) = true) :
    DB.restrictNot { db with
      vocabularyItems := db.vocabularyItems.filter (fun x => !q x) } u =
      DB.restrictNot db u := by
  unfold DB.restrictNot
  simp only [DB.mk.injEq, and_true, true_and]
  exact filter_not_own_filter _ q _ himp

theorem updateLanguageProfile_frame (db : DB) (u : String)
    (input : UpdateLanguageProfileInput) (now : Nat) :
    ((updateLanguageProfile db (some u) input now).1).restrictNot u =
      db.restrictNot u := by
  rw [updateLanguageProfile_some_eq]
  cases hh : (db.languageProfiles.filter
      (fun p => p.id == input.id && p.userId == u)).head? with
  | none => rfl
  | some ex =>
    exact restrictNot_map_profiles db u _
      (fun x hx => by simp [hx])
      (fun x => by cases hc : (x.id == input.id && x.userId == u) <;>
        simp [hc])

theorem listMyLanguageProfiles_frame (db : DB) (u : String)
    (includeInactive : Bool) :
    ((listMyLanguageProfiles db (some u) includeInactive).1).restrictNot u =
      db.restrictNot u := rfl

theorem upsertVocabularyItem_frame (db : DB) (u : String)
    (input : UpsertVocabularyItemInput) (now : Nat) (freshId : String) :
    ((upsertVocabularyItem db (some u) input now freshId).1).restrictNot u =
      db.restrictNot u := by
  rw [upsertVocabularyItem_some_eq]
  cases hp : (db.languageProfiles.filter
      (fun p => p.id == input.languageProfileId && p.userId == u)).head? with
  | none => rfl
  | some prof =>
    cases hid : input.id with
    | none => exact restrictNot_append_vocab db u _ (by simp)
    | some iid =>
      cases hv : (db.vocabularyItems.filter
          (fun it => it.id == iid && it.userId == u)).head? with
      | none => simp [hv]
      | some existing =>
        simp only [hv]
        exact restrictNot_map_vocab db u _
          (fun x hx => by simp [hx])
          (fun x => by cases hc : (x.id == iid && x.userId == u) <;>
            simp [hc])

theorem deleteVocabularyItem_frame (db : DB) (u : String) (id : String) :
    ((deleteVocabularyItem db (some u) id).1).restrictNot u =
      db.restrictNot u := by
  rw [deleteVocabularyItem_eq]
  exact restrictNot_filter_vocab db u
    (fun it => it.id == id && it.userId == u) (fun x hx => and_snd hx)

theorem listVocabularyItems_frame (db : DB) (u : String)
    (input : ListQueryInput) :
    ((listVocabularyItems db (some u) input).1).restrictNot u =
      db.restrictNot u := rfl

theorem startPracticeSession_frame (db : DB) (u : String)
    (input : StartPracticeSessionInput) (now : Nat) (freshId : String) :
    ((startPracticeSession db (some u) input now freshId).1).restrictNot u =
      db.restrictNot u := by
  rw [startPracticeSession_some_eq]
  cases hp : (db.languageProfiles.filter
      (fun p => p.id == input.languageProfileId && p.userId == u)).head? with
  | none => rfl
  | some prof => exact restrictNot_append_sessions db u _ (by simp)

theorem completePracticeSession_frame_not_own (db : DB) (u : String)
    (input : CompletePracticeSessionInput) (now : Nat) :
    ((completePracticeSession db (some u) input now).1).restrictNot u =
      db.restrictNot u := by
  rw [completePracticeSession_some_eq]
  cases hh : (db.practiceSessions.filter
      (fun s => s.id == input.id && s.userId == u)).head? with
  | none => rfl
  | some session =>
    exact restrictNot_map_sessions db u _
      (fun x hx => by simp [hx])
      (fun x => by cases hc : (x.id == input.id && x.userId == u) <;>
        simp [hc])

theorem listPracticeSessions_frame (db : DB) (u : String)
    (input : ListQueryInput) :
    ((listPracticeSessions db (some u) input).1).restrictNot u =
      db.restrictNot u := rfl

/-! Targeted access to a row the caller does not own resolves as
`NOT_FOUND`, and list results only ever contain the caller's rows. -/

theorem updateLanguageProfile_cross_notFound (db : DB) (u : String)
    (input : UpdateLanguageProfileInput) (now : Nat)
    (h0 : db.languageProfiles.countP
      (fun p => p.id == input.id && p.userId == u) = 0) :
    (updateLanguageProfile db (some u) input now).2 =
      Except.error ActionError.notFound := by
  have hnil := countP_zero_filter_nil _ _ h0
  rw [updateLanguageProfile_some_eq, hnil]
  rfl

theorem upsertVocabularyItem_cross_notFound (db : DB) (u : String)
    (input : UpsertVocabularyItemInput) (now : Nat) (freshId : String)
    (iid : String) (hid : input.id = some iid)
    (h0 : db.vocabularyItems.countP
      (fun it => it.id == iid && it.userId == u) = 0) :
    (upsertVocabularyItem db (some u) input now freshId).2 =
      Except.error ActionError.notFound := by
  have hnil := countP_zero_filter_nil _ _ h0
  rw [upsertVocabularyItem_some_eq]
  cases hp : (db.languageProfiles.filter
      (fun p => p.id == input.languageProfileId && p.userId == u)).head? with
  | none => simp [hp]
  | some prof => simp [hp, hid, hnil]

theorem deleteVocabularyItem_cross_notFound (db : DB) (u : String)
    (id : String)
    (h0 : db.vocabularyItems.countP
      (fun it => it.id == id && it.userId == u) = 0) :
    (deleteVocabularyItem db (some u) id).2 =
      Except.error ActionError.notFound := by
  rw [deleteVocabularyItem_eq]
  simp [h0]

theorem completePracticeSession_cross_notFound (db : DB) (u : String)
    (input : CompletePracticeSessionInput) (now : Nat)
    (h0 : db.practiceSessions.countP
      (fun s => s.id == input.id && s.userId == u) = 0) :
    (completePracticeSession db (some u) input now).2 =
      Except.error ActionError.notFound := by
  have hnil := countP_zero_filter_nil _ _ h0
  rw [completePracticeSession_some_eq, hnil]
  rfl

theorem listMyLanguageProfiles_only_own (db : DB) (u : String)
    (includeInactive : Bool) (res : ListData LanguageProfile)
    (h : (listMyLanguageProfiles db (some u) includeInactive).2 =
      Except.ok res) :
    ∀ r ∈ res.items, r.userId = u := by
  rw [listMyLanguageProfiles_some_eq] at h
  simp only [Except.ok.injEq] at h
  subst h
  intro r hr
  have hq := List.of_mem_filter hr
  cases includeInactive with
  | true => simpa using hq
  | false =>
    have hq2 : r.userId = u ∧ r.isActive = true := by simpa using hq
    exact hq2.1

theorem listVocabularyItems_only_own (db : DB) (u : String)
    (input : ListQueryInput) (res : PageData VocabularyItem)
    (h : (listVocabularyItems db (some u) input).2 = Except.ok res) :
    ∀ r ∈ res.items, r.userId = u := by
  rw [listVocabularyItems_eq] at h
  simp only [Except.ok.injEq] at h
  subst h
  intro r hr
  have h1 : r ∈ db.vocabularyItems.filter
      (fun it => it.languageProfileId == input.languageProfileId &&
        it.userId == u) :=
    List.mem_of_mem_drop (List.mem_of_mem_take hr)
  have hq := List.of_mem_filter h1
  simp only [Bool.and_eq_true, beq_iff_eq] at hq
  exact hq.2

theorem listPracticeSessions_only_own (db : DB) (u : String)
    (input : ListQueryInput) (res : PageData PracticeSession)
    (h : (listPracticeSessions db (some u) input).2 = Except.ok res) :
    ∀ r ∈ res.items, r.userId = u := by
  rw [listPracticeSessions_eq] at h
  simp only [Except.ok.injEq] at h
  subst h
  intro r hr
  have h1 : r ∈ db.practiceSessions.filter
      (fun s => s.languageProfileId == input.languageProfileId &&
        s.userId == u) :=
    List.mem_of_mem_drop (List.mem_of_mem_take hr)
  have hq := List.of_mem_filter h1
  simp only [Bool.and_eq_true, beq_iff_eq] at hq
  exact hq.2

/-- C1: cross-user isolation. For every authenticated caller `u` and every
operation (profile update/list, vocabulary upsert/delete/list, session
start/complete/list): the observable result equals the result computed on
the caller-owned restriction of the database (so it neither contains nor
depends on any other identity's rows); the rows owned by other identities
are never mutated; every targeted access to an id the caller owns no row
for — in particular a row owned by another identity — yields `NOT_FOUND`;
and list results only contain rows owned by the caller. -/
theorem cross_user_isolation (db : DB) (u : String)
    (inpU : UpdateLanguageProfileInput) (includeInactive : Bool)
    (inpV : UpsertVocabularyItemInput) (did : String)
    (inpL : ListQueryInput) (inpS : StartPracticeSessionInput)
    (inpC : CompletePracticeSessionInput) (now : Nat) (freshId : String) :
    ((updateLanguageProfile db (some u) inpU now).2 =
      (updateLanguageProfile (db.restrict u) (some u) inpU now).2) ∧
    ((listMyLanguageProfiles db (some u) includeInactive).2 =
      (listMyLanguageProfiles (db.restrict u) (some u) includeInactive).2) ∧
    ((upsertVocabularyItem db (some u) inpV now freshId).2 =
      (upsertVocabularyItem (db.restrict u) (some u) inpV now freshId).2) ∧
    ((deleteVocabularyItem db (some u) did).2 =
      (deleteVocabularyItem (db.restrict u) (some u) did).2) ∧
    ((listVocabularyItems db (some u) inpL).2 =
      (listVocabularyItems (db.restrict u) (some u) inpL).2) ∧
    ((startPracticeSession db (some u) inpS now freshId).2 =
      (startPracticeSession (db.restrict u) (some u) inpS now freshId).2) ∧
    ((completePracticeSession db (some u) inpC now).2 =
      (completePracticeSession (db.restrict u) (some u) inpC now).2) ∧
    ((listPracticeSessions db (some u) inpL).2 =
      (listPracticeSessions (db.restrict u) (some u) inpL).2) ∧
    (((updateLanguageProfile db (some u) inpU now).1).restrictNot u =
      db.restrictNot u) ∧
    (((listMyLanguageProfiles db (some u) includeInactive).1).restrictNot u =
      db.restrictNot u) ∧
    (((upsertVocabularyItem db (some u) inpV now freshId).1).restrictNot u =
      db.restrictNot u) ∧
    (((deleteVocabularyItem db (some u) did).1).restrictNot u =
      db.restrictNot u) ∧
    (((listVocabularyItems db (some u) inpL).1).restrictNot u =
      db.restrictNot u) ∧
    (((startPracticeSession db (some u) inpS now freshId).1).restrictNot u =
      db.restrictNot u) ∧
    (((completePracticeSession db (some u) inpC now).1).restrictNot u =
      db.restrictNot u) ∧
    (((listPracticeSessions db (some u) inpL).1).restrictNot u =
      db.restrictNot u) ∧
    (db.languageProfiles.countP
        (fun p => p.id == inpU.id && p.userId == u) = 0 →
      (updateLanguageProfile db (some u) inpU now).2 =
        Except.error ActionError.notFound) ∧
    (∀ iid, inpV.id = some iid →
      db.vocabularyItems.countP
        (fun it => it.id == iid && it.userId == u) = 0 →
      (upsertVocabularyItem db (some u) inpV now freshId).2 =
        Except.error ActionError.notFound) ∧
    (db.vocabularyItems.countP
        (fun it => it.id == did && it.userId == u) = 0 →
      (deleteVocabularyItem db (some u) did).2 =
        Except.error ActionError.notFound) ∧
    (db.practiceSessions.countP
        (fun s => s.id == inpC.id && s.userId == u) = 0 →
      (completePracticeSession db (some u) inpC now).2 =
        Except.error ActionError.notFound) ∧
    (∀ res, (listMyLanguageProfiles db (some u) includeInactive).2 =
        Except.ok res → ∀ r ∈ res.items, r.userId = u) ∧
    (∀ res, (listVocabularyItems db (some u) inpL).2 = Except.ok res →
      ∀ r ∈ res.items, r.userId = u) ∧
    (∀ res, (listPracticeSessions db (some u) inpL).2 = Except.ok res →
      ∀ r ∈ res.items, r.userId = u) :=
  ⟨updateLanguageProfile_restrict_eq db u inpU now,
   listMyLanguageProfiles_restrict_eq db u includeInactive,
   upsertVocabularyItem_restrict_eq db u inpV now freshId,
   deleteVocabularyItem_restrict_eq db u did,
   listVocabularyItems_restrict_eq db u inpL,
   startPracticeSession_restrict_eq db u inpS now freshId,
   completePracticeSession_restrict_eq db u inpC now,
   listPracticeSessions_restrict_eq db u inpL,
   updateLanguageProfile_frame db u inpU now,
   listMyLanguageProfiles_frame db u includeInactive,
   upsertVocabularyItem_frame db u inpV now freshId,
   deleteVocabularyItem_frame db u did,
   listVocabularyItems_frame db u inpL,
   startPracticeSession_frame db u inpS now freshId,
   completePracticeSession_frame_not_own db u inpC now,
   listPracticeSessions_frame db u inpL,
   fun h0 => updateLanguageProfile_cross_notFound db u inpU now h0,
   fun iid hid h0 =>
     upsertVocabularyItem_cross_notFound db u inpV now freshId iid hid h0,
   fun h0 => deleteVocabularyItem_cross_notFound db u did h0,
   fun h0 => completePracticeSession_cross_notFound db u inpC now h0,
   fun res h => listMyLanguageProfiles_only_own db u includeInactive res h,
   fun res h => listVocabularyItems_only_own db u inpL res h,
   fun res h => listPracticeSessions_only_own db u inpL res h⟩

/-- C1 witness: bob's attempts to update alice's profile `p1`, upsert,
delete alice's item `v1`, and complete alice's session `s1` all resolve as
`NOT_FOUND`. -/
theorem cross_user_isolation_witness :
    (updateLanguageProfile sampleDB (some "bob")
        ⟨"p1", some "x", none, none, none, none⟩ 5).2 =
      Except.error ActionError.notFound ∧
    (upsertVocabularyItem sampleDB (some "bob")
        ⟨some "v1", "p2", "x", none, none, none, none, none, none, none,
          none, none, none⟩ 5 "f").2 =
      Except.error ActionError.notFound ∧
    (deleteVocabularyItem sampleDB (some "bob") "v1").2 =
      Except.error ActionError.notFound ∧
    (completePracticeSession sampleDB (some "bob")
        ⟨"s1", none, none, none, none⟩ 5).2 =
      Except.error ActionError.notFound := by
  obtain ⟨-, -, -, -, -, -, -, -, -, -, -, -, -, -, -, -,
      cu, cv, cd, cc, -, -, -⟩ :=
    cross_user_isolation sampleDB "bob"
      ⟨"p1", some "x", none, none, none, none⟩ false
      ⟨some "v1", "p2", "x", none, none, none, none, none, none, none,
        none, none, none⟩
      "v1" ⟨"p1", 1, 20⟩ ⟨"p1", none, none, none⟩
      ⟨"s1", none, none, none, none⟩ 5 "f"
  exact ⟨cu (by decide), cv "v1" rfl (by decide), cd (by decide),
    cc (by decide)⟩
